import Mathlib

/-!
Verification of the tenant-identity / usage-ledger / feature-flag core of
the strehonadmin backend, as a shallow embedding in Lean 4.

Embedded source locations:
* `FeatureFlagService.isEnabled`  (ROUTE_REFACTORING_SUMMARY.md)
* the per-tenant feature listing route (features.tsx, GET /tenants/:tenantId/features)
* `TenantService.resolve`         (ROUTE_REFACTORING_SUMMARY.md)
* `UsageService.get/record/increment/isOverLimit` (ROUTE_REFACTORING_SUMMARY.md)
* `trackUsage` and usage routes   (usage.tsx)

Wall-clock inputs of the source (current period, today's date, the
`updated_at` timestamp) are threaded as explicit string parameters.
JavaScript numbers on these paths only ever hold non-negative integers in
the claims under study, so they are modelled as `Nat`.
-/

namespace Strehon

/-- JavaScript `a || b` for an optional string: `undefined` and the empty
string are falsy. -/
def jsOrStr (o : Option String) (d : String) : String :=
  match o with
  | some s => if s = "" then d else s
  | none => d

/-- JavaScript `a || b` for an optional number: `undefined` and `0` are
falsy. -/
def jsOrNat (o : Option Nat) (d : Nat) : Nat :=
  match o with
  | some v => if v = 0 then d else v
  | none => d

/-- Membership test `xs?.includes(t)` on an optional list: an absent list
contains nothing. -/
def optContains (o : Option (List String)) (t : String) : Bool :=
  (o.getD []).contains t

-- ===========================================================================
-- Feature flags
-- ===========================================================================

/-- A feature flag record as stored in the fast store (models.tsx
`FeatureFlag`; the fields consulted by evaluation). -/
structure FeatureFlag where
  key : String
  name : String
  status : String
  enabledForTenants : Option (List String)
  disabledForTenants : Option (List String)
  enabledForPlans : Option (List String)
  rolloutPercentage : Option Nat
  deriving Repr, DecidableEq

/-- Sum of the character codes of a string: `tenantId.split('').reduce((acc,
char) => acc + char.charCodeAt(0), 0)`. -/
def charCodeSum (s : String) : Nat :=
  (s.data.map Char.toNat).sum

/-- The plan gate of `FeatureFlagService.isEnabled`: `planType &&
flag.enabledForPlans && !flag.enabledForPlans.includes(planType)`. -/
def planGateFails (flag : FeatureFlag) (planType : Option String) : Bool :=
  match planType, flag.enabledForPlans with
  | some p, some plans => !(plans.contains p)
  | _, _ => false

/-- Body of `FeatureFlagService.isEnabled` once the flag has been found in
the flag list. -/
def evalFlag (flag : FeatureFlag) (tenantId : String) (planType : Option String) : Bool :=
  if flag.status = "disabled" then false
  else if optContains flag.disabledForTenants tenantId then false
  else if optContains flag.enabledForTenants tenantId then true
  else if planGateFails flag planType then false
  else
    match flag.rolloutPercentage with
    | some r =>
        if r < 100 then decide (charCodeSum tenantId % 100 < r)
        else flag.status = "enabled"
    | none => flag.status = "enabled"

/-- Embedding of `FeatureFlagService.isEnabled(flagKey, tenantId, planType?)`: the flag
list is the result of `this.list()`, searched by key with `find`. -/
def isEnabled (flags : List FeatureFlag) (flagKey tenantId : String)
    (planType : Option String) : Bool :=
  match flags.find? (fun f => f.key = flagKey) with
  | some flag => evalFlag flag tenantId planType
  | none => false

/-- Per-feature `enabled` computation of the tenant feature listing route
(features.tsx, GET /tenants/:tenantId/features): explicit-enable is checked
before explicit-disable, and otherwise plan entitlement alone decides. -/
def listFeatureEnabled (tenantIdentifiers : List String) (plan : String)
    (feature : FeatureFlag) : Bool :=
  let isExplicitlyEnabled :=
    tenantIdentifiers.any (fun id => optContains feature.enabledForTenants id)
  let isExplicitlyDisabled :=
    tenantIdentifiers.any (fun id => optContains feature.disabledForTenants id)
  if isExplicitlyEnabled then true
  else if isExplicitlyDisabled then false
  else (feature.enabledForPlans.getD []).contains plan

example :
    isEnabled [{ key := "x", name := "X", status := "enabled",
                 enabledForTenants := some ["t1"],
                 disabledForTenants := some ["t1"],
                 enabledForPlans := none, rolloutPercentage := none }]
      "x" "t1" none = false := by decide

example :
    listFeatureEnabled ["t1"] "Basic"
      { key := "x", name := "X", status := "enabled",
        enabledForTenants := some ["t1"],
        disabledForTenants := some ["t1"],
        enabledForPlans := none, rolloutPercentage := none } = true := by decide

example : charCodeSum "ab" = 195 := by decide

-- ===========================================================================
-- Tenant resolution
-- ===========================================================================

/-- The JSON `settings` column of a relational-store tenant row (the fields
read by `TenantService.resolve`). -/
structure PgSettings where
  external_id : Option String
  plan : Option String
  address : Option String
  city : Option String
  state : Option String
  country : Option String
  postal_code : Option String
  website : Option String
  industry : Option String
  size : Option String
  timezone : Option String
  currency : Option String
  logo : Option String
  primary_color : Option String
  last_active_at : Option String
  deriving Repr, DecidableEq

/-- A row of the relational `tenants` table as selected by
`TenantService.resolve`. -/
structure PgTenant where
  id : String
  name : String
  status : String
  email : Option String
  phone : Option String
  created_at : Option String
  settings : Option PgSettings
  deriving Repr, DecidableEq

/-- Optional-chaining access `pgTenant.settings?.<field>`: `none` when the settings payload is
absent. -/
def settingsField (r : PgTenant) (f : PgSettings → Option String) : Option String :=
  r.settings.bind f

/-- The normalized tenant shape produced by the fast store and by the
relational-store translation in `TenantService.resolve`. -/
structure Tenant where
  id : String
  uuid : String
  name : String
  status : String
  plan : String
  email : String
  phone : String
  address : String
  city : String
  state : String
  country : String
  postalCode : String
  website : String
  industry : String
  size : String
  timezone : String
  currency : String
  logo : String
  primaryColor : String
  createdAt : Option String
  created : String
  lastActiveAt : Option String
  deriving Repr, DecidableEq

/-- Split a character list at every occurrence of a separator character,
keeping empty groups — the behaviour of JavaScript `s.split(sep)` (and of
`String.splitOn` for a one-character separator), stated on `List Char` so
that it evaluates by structural recursion. -/
def splitOnChar (sep : Char) : List Char → List (List Char)
  | [] => [[]]
  | c :: cs =>
    match splitOnChar sep cs with
    | [] => if c = sep then [[], [c]] else [[c]]
    | g :: gs => if c = sep then [] :: g :: gs else (c :: g) :: gs

/-- Evaluation of `pgTenant.created_at?.split('T')[0] || <today>`: the date part of the
creation timestamp, falling back to today's date when absent or empty. -/
def createdDate (created_at : Option String) (today : String) : String :=
  match created_at with
  | some s => jsOrStr (some ((splitOnChar 'T' s.data).headD []).asString) today
  | none => today

/-- The translation of a relational-store row into the normalized tenant
shape; both relational branches of `TenantService.resolve` build exactly
this record. -/
def pgToTenant (r : PgTenant) (today : String) : Tenant :=
  { id := jsOrStr (settingsField r PgSettings.external_id) r.id
    uuid := r.id
    name := r.name
    status := r.status
    plan := jsOrStr (settingsField r PgSettings.plan) "Trial"
    email := jsOrStr r.email ""
    phone := jsOrStr r.phone ""
    address := jsOrStr (settingsField r PgSettings.address) ""
    city := jsOrStr (settingsField r PgSettings.city) ""
    state := jsOrStr (settingsField r PgSettings.state) ""
    country := jsOrStr (settingsField r PgSettings.country) ""
    postalCode := jsOrStr (settingsField r PgSettings.postal_code) ""
    website := jsOrStr (settingsField r PgSettings.website) ""
    industry := jsOrStr (settingsField r PgSettings.industry) ""
    size := jsOrStr (settingsField r PgSettings.size) ""
    timezone := jsOrStr (settingsField r PgSettings.timezone) "UTC"
    currency := jsOrStr (settingsField r PgSettings.currency) "USD"
    logo := jsOrStr (settingsField r PgSettings.logo) ""
    primaryColor := jsOrStr (settingsField r PgSettings.primary_color) "#ea580c"
    createdAt := r.created_at
    created := createdDate r.created_at today
    lastActiveAt := settingsField r PgSettings.last_active_at }

/-- A hexadecimal digit as accepted by the case-insensitive UUID regex. -/
def isHexChar (c : Char) : Bool :=
  c.isDigit || ('a' ≤ c && c ≤ 'f') || ('A' ≤ c && c ≤ 'F')

/-- The UUID shape test
`identifier.match(/^[0-9a-f]\x7b8\x7d-[0-9a-f]\x7b4\x7d-[0-9a-f]\x7b4\x7d-[0-9a-f]\x7b4\x7d-[0-9a-f]\x7b12\x7d$/i)`:
five hyphen-separated groups of hex digits with lengths 8-4-4-4-12. -/
def isUuidShape (s : String) : Bool :=
  match splitOnChar '-' s.data with
  | [a, b, c, d, e] =>
      a.length = 8 && b.length = 4 && c.length = 4 && d.length = 4 &&
      e.length = 12 && (a ++ b ++ c ++ d ++ e).all isHexChar
  | _ => false

/-- Result of `TenantService.resolve`: the tenant (or null) and the source
tag (`'kv' | 'postgres' | null`). -/
structure ResolveResult where
  tenant : Option Tenant
  source : Option String
  deriving Repr, DecidableEq

/-- Embedding of `TenantService.resolve(identifier)`.  Here `kv` is the fast store as a map
from keys to stored tenants; `pg` is the relational `tenants` table; `today`
is today's date string (wall clock).  Queries by equality are modelled with
`find?` (primary keys are unique, and `maybeSingle` yields the matching
row). -/
def resolve (kv : String → Option Tenant) (pg : List PgTenant) (today : String)
    (identifier : String) : ResolveResult :=
  match kv ("tenant:" ++ identifier) with
  | some t => { tenant := some t, source := some "kv" }
  | none =>
    let byId : Option PgTenant :=
      if isUuidShape identifier then pg.find? (fun r => r.id = identifier)
      else none
    match byId with
    | some r => { tenant := some (pgToTenant r today), source := some "postgres" }
    | none =>
      match pg.find? (fun r => settingsField r PgSettings.external_id = some identifier) with
      | some r => { tenant := some (pgToTenant r today), source := some "postgres" }
      | none => { tenant := none, source := none }

example : isUuidShape "0123abcd-0000-AAAA-ffff-0123456789ab" = true := by decide
example : isUuidShape "T-17" = false := by decide
example : isUuidShape "0123abcd-0000-AAAA-ffff-0123456789ag" = false := by decide

-- ===========================================================================
-- Usage ledger
-- ===========================================================================

/-- A usage record as stored in the schemaless fast store.  The store holds
JSON objects, so fields that only some writers set are `Option`:
`UsageService.record` sets `id`, `tenantId`, `percentage` and `daily`, while
the route-level tracker (`trackUsage` in usage.tsx) writes records without
them. -/
structure StoredUsage where
  metric : String
  period : String
  current : Nat
  limit : Nat
  percentage : Option Nat
  daily : Option (List (String × Nat))
  id : Option String
  tenantId : Option String
  updatedAt : String
  deriving Repr, DecidableEq

/-- The fast store restricted to usage records, as a map from keys to
records. -/
def UsageStore : Type := String → Option StoredUsage

/-- Store update `kv.set(key, value)` on the usage portion of the store. -/
def setUsage (st : UsageStore) (key : String) (v : StoredUsage) : UsageStore :=
  fun k => if k = key then some v else st k

/-- A store with no usage records. -/
def emptyUsage : UsageStore := fun _ => none

/-- The key built by `UsageService.get` / `UsageService.record`:
`usage:<tenantId>:<metric>:<period>`. -/
def serviceUsageKey (tenantId metric period : String) : String :=
  "usage:" ++ tenantId ++ ":" ++ metric ++ ":" ++ period

/-- The key built by `trackUsage` and the usage routes in usage.tsx:
`usage:<tenantId>:<period>:<metric>`. -/
def routeUsageKey (tenantId period metric : String) : String :=
  "usage:" ++ tenantId ++ ":" ++ period ++ ":" ++ metric

/-- Evaluation of `Math.min(100, Math.round((value / limit) * 100))` over exact rational
arithmetic, expressed in natural-number arithmetic:
`round(a/b) = floor((2a+b)/(2b))` for `b > 0` (JavaScript `Math.round`
rounds halves up).  For `limit = 0` and `value > 0` the JavaScript
expression yields `min(100, Infinity) = 100`; the `0/0` case produces `NaN`
and is outside the model. -/
def usagePercentage (value limit : Nat) : Nat :=
  if limit = 0 then 100
  else min 100 ((2 * (value * 100) + limit) / (2 * limit))

/-- Assignment `daily[today] = value`: overwrite today's entry of the daily map
(last-write-wins within a day). -/
def dailySet (daily : List (String × Nat)) (today : String) (value : Nat) :
    List (String × Nat) :=
  (daily.filter (fun e => e.1 ≠ today)) ++ [(today, value)]

/-- Embedding of `UsageService.get(tenantId, metric, period?)`; `currentPeriod` is the
wall-clock `getCurrentPeriod()` used when no period is supplied. -/
def UsageService.get (st : UsageStore) (tenantId metric : String)
    (periodOpt : Option String) (currentPeriod : String) : Option StoredUsage :=
  st (serviceUsageKey tenantId metric (periodOpt.getD currentPeriod))

/-- Embedding of `UsageService.record(tenantId, metric, value, limit, period?)`: builds
the full record (current value, supplied limit, derived percentage, daily
map stamped at `today`) and stores it, returning the record and the updated
store. -/
def UsageService.record (st : UsageStore) (tenantId metric : String)
    (value limit : Nat) (periodOpt : Option String)
    (currentPeriod today nowIso : String) : StoredUsage × UsageStore :=
  let p := periodOpt.getD currentPeriod
  let key := serviceUsageKey tenantId metric p
  let existing := st key
  let daily := dailySet ((existing.bind StoredUsage.daily).getD []) today value
  let usage : StoredUsage :=
    { metric := metric, period := p, current := value, limit := limit
      percentage := some (usagePercentage value limit)
      daily := some daily
      id := some key, tenantId := some tenantId, updatedAt := nowIso }
  (usage, setUsage st key usage)

/-- Embedding of `UsageService.increment(tenantId, metric, amount, limit, period?)`:
read-current-then-record-new-total. -/
def UsageService.increment (st : UsageStore) (tenantId metric : String)
    (amount limit : Nat) (periodOpt : Option String)
    (currentPeriod today nowIso : String) : StoredUsage × UsageStore :=
  let existing := UsageService.get st tenantId metric periodOpt currentPeriod
  let currentValue := (existing.map StoredUsage.current).getD 0
  UsageService.record st tenantId metric (currentValue + amount) limit periodOpt
    currentPeriod today nowIso

/-- Embedding of `UsageService.isOverLimit(tenantId, metric, period?)`: reads the record
and compares; a missing record yields `false`.  The function only reads the
store. -/
def UsageService.isOverLimit (st : UsageStore) (tenantId metric : String)
    (periodOpt : Option String) (currentPeriod : String) : Bool :=
  match UsageService.get st tenantId metric periodOpt currentPeriod with
  | some usage => usage.limit ≤ usage.current
  | none => false

/-- ASCII lower-casing of `tenant.plan.toLowerCase()`. -/
def strToLower (s : String) : String :=
  (s.data.map (fun c => if 'A' ≤ c && c ≤ 'Z' then Char.ofNat (c.toNat + 32) else c)).asString

/-- A plan record read from the fast store by `trackUsage`: only its
optional `limits` map is consulted. -/
structure PlanRec where
  limits : Option (List (String × Nat))
  deriving Repr, DecidableEq

/-- The tenant fields read by `trackUsage` from the fast store. -/
structure TenantLite where
  plan : String
  deriving Repr, DecidableEq

/-- Limit derivation on the first write of `trackUsage`: starts at 1000,
and when the tenant and its plan data with a `limits` map are found, takes
`planData.limits[metricKey] || 1000` where `metricKey` renames `api_calls`
to `apiCalls`. -/
def trackUsageLimit (tenants : String → Option TenantLite)
    (plans : String → Option PlanRec) (tenantId metric : String) : Nat :=
  match tenants ("tenant:" ++ tenantId) with
  | none => 1000
  | some tenant =>
    match plans ("plan:plan_" ++ strToLower tenant.plan) with
    | none => 1000
    | some planData =>
      match planData.limits with
      | none => 1000
      | some limits =>
        let metricKey := if metric = "api_calls" then "apiCalls" else metric
        jsOrNat (limits.lookup metricKey) 1000

/-- Embedding of `trackUsage(tenantId, metric, amount)` from usage.tsx: addresses
`usage:<tenantId>:<period>:<metric>`; on a miss it creates a record with a
plan-derived limit (and no percentage or daily fields), on a hit it spreads
the existing record, adding `amount` to `current`.  `period` is the
wall-clock current month and `nowIso` the `updated_at` timestamp. -/
def trackUsage (st : UsageStore) (tenants : String → Option TenantLite)
    (plans : String → Option PlanRec) (tenantId metric : String)
    (amount : Nat) (period nowIso : String) : UsageStore :=
  let key := routeUsageKey tenantId period metric
  match st key with
  | none =>
    setUsage st key
      { metric := metric, period := period, current := amount
        limit := trackUsageLimit tenants plans tenantId metric
        percentage := none, daily := none, id := none, tenantId := none
        updatedAt := nowIso }
  | some existing =>
    setUsage st key
      { existing with current := existing.current + amount, updatedAt := nowIso }

example : usagePercentage 50 10000 = 1 := by decide
example : usagePercentage 5 100 = 5 := by decide
example : usagePercentage 8 100 = 8 := by decide
example : usagePercentage 250 100 = 100 := by decide
example : usagePercentage 1 200 = 1 := by decide
example : usagePercentage 3 200 = 2 := by decide

-- ===========================================================================
-- Theorems: usage ledger (C8, C9, C10)
-- ===========================================================================

/-- C8: for every tenant, metric and period for which a usage record
exists, `isOverLimit` returns true iff the record's current value is at
least its limit; in particular at the boundary `current = limit` it returns
true. -/
theorem c8_isOverLimit_iff (st : UsageStore) (tenantId metric : String)
    (periodOpt : Option String) (currentPeriod : String) (u : StoredUsage)
    (h : UsageService.get st tenantId metric periodOpt currentPeriod = some u) :
    (UsageService.isOverLimit st tenantId metric periodOpt currentPeriod = true ↔
      u.limit ≤ u.current) ∧
    (u.current = u.limit →
      UsageService.isOverLimit st tenantId metric periodOpt currentPeriod = true) := by
  constructor
  · simp [UsageService.isOverLimit, h]
  · intro hb
    simp [UsageService.isOverLimit, h, hb]

/-- Sample record for exercising the ledger theorems: a record sitting
exactly at its limit. -/
def uRecAtLimit : StoredUsage :=
  { metric := "rooms", period := "2026-10", current := 7, limit := 7
    percentage := some 100, daily := none, id := none, tenantId := none
    updatedAt := "2026-10-11T00:00:00Z" }

/-- Store holding only `uRecAtLimit` under its service key. -/
def stAtLimit : UsageStore :=
  setUsage emptyUsage (serviceUsageKey "tn_1" "rooms" "2026-10") uRecAtLimit

theorem c8_isOverLimit_iff_witness :
    UsageService.isOverLimit stAtLimit "tn_1" "rooms" (some "2026-10") "2026-10" = true :=
  (c8_isOverLimit_iff stAtLimit "tn_1" "rooms" (some "2026-10") "2026-10" uRecAtLimit
    (by decide)).2 (by decide)

/-- C10: for every tenant, metric and period with no usage record,
`isOverLimit` returns false rather than an error; the function is a pure
read of the store (it calls only `UsageService.get`), so no record is
created. -/
theorem c10_isOverLimit_missing (st : UsageStore) (tenantId metric : String)
    (periodOpt : Option String) (currentPeriod : String)
    (h : UsageService.get st tenantId metric periodOpt currentPeriod = none) :
    UsageService.isOverLimit st tenantId metric periodOpt currentPeriod = false := by
  simp [UsageService.isOverLimit, h]

theorem c10_isOverLimit_missing_witness :
    UsageService.isOverLimit emptyUsage "tn_1" "rooms" (some "2026-10") "2026-10" = false :=
  c10_isOverLimit_missing emptyUsage "tn_1" "rooms" (some "2026-10") "2026-10" rfl

/-- C9: with no prior record in the period, `increment(t, m, 5, limit=100)`
followed by `increment(t, m, 3, limit=100)` in the same period yields a
stored record with `current = 8` and `percentage = 8`: increment reads the
existing current value (0 when absent), adds the amount, and records the
new total. -/
theorem c9_increment_accumulates (st : UsageStore) (tenantId metric : String)
    (periodOpt : Option String) (currentPeriod d1 n1 d2 n2 : String)
    (h : UsageService.get st tenantId metric periodOpt currentPeriod = none) :
    let st1 := (UsageService.increment st tenantId metric 5 100 periodOpt
      currentPeriod d1 n1).2
    let res := UsageService.increment st1 tenantId metric 3 100 periodOpt
      currentPeriod d2 n2
    res.1.current = 8 ∧ res.1.percentage = some 8 ∧
      UsageService.get res.2 tenantId metric periodOpt currentPeriod = some res.1 := by
  intro st1 res
  have h1 : UsageService.get st1 tenantId metric periodOpt currentPeriod =
      some (UsageService.increment st tenantId metric 5 100 periodOpt
        currentPeriod d1 n1).1 := by
    simp [st1, UsageService.increment, UsageService.record, UsageService.get, setUsage]
  have hc1 : (UsageService.increment st tenantId metric 5 100 periodOpt
      currentPeriod d1 n1).1.current = 5 := by
    simp [UsageService.increment, UsageService.record, h]
  refine ⟨?_, ?_, ?_⟩
  · simp [res, UsageService.increment, UsageService.record, h1, hc1, h]
  · norm_num [res, UsageService.increment, UsageService.record, h1, hc1, h,
      usagePercentage]
  · simp [res, UsageService.increment, UsageService.record, UsageService.get, setUsage]

theorem c9_increment_accumulates_witness :
    let st1 := (UsageService.increment emptyUsage "tn_1" "api_calls" 5 100
      (some "2026-10") "2026-10" "2026-10-11" "now1").2
    let res := UsageService.increment st1 "tn_1" "api_calls" 3 100
      (some "2026-10") "2026-10" "2026-10-11" "now2"
    res.1.current = 8 ∧ res.1.percentage = some 8 ∧
      UsageService.get res.2 "tn_1" "api_calls" (some "2026-10") "2026-10" = some res.1 :=
  c9_increment_accumulates emptyUsage "tn_1" "api_calls" (some "2026-10") "2026-10"
    "2026-10-11" "now1" "2026-10-11" "now2" rfl

-- ===========================================================================
-- Helper lemmas on lists and strings
-- ===========================================================================

/-- Splitting an append at a separator character occurring in neither part
is unambiguous. -/
theorem append_cons_sep_inj (c : Char) (l1 : List Char) :
    ∀ (l3 l2 l4 : List Char), c ∉ l1 → c ∉ l3 →
      l1 ++ c :: l2 = l3 ++ c :: l4 → l1 = l3 ∧ l2 = l4 := by
  induction l1 with
  | nil =>
    intro l3 l2 l4 _ h3 h
    cases l3 with
    | nil => simpa using h
    | cons b t3 =>
      simp only [List.nil_append, List.cons_append, List.cons.injEq] at h
      exact absurd (show c ∈ b :: t3 by rw [h.1]; exact List.mem_cons_self b t3) h3
  | cons a t1 ih =>
    intro l3 l2 l4 h1 h3 h
    cases l3 with
    | nil =>
      simp only [List.cons_append, List.nil_append, List.cons.injEq] at h
      exact absurd (show c ∈ a :: t1 by rw [← h.1]; exact List.mem_cons_self a t1) h1
    | cons b t3 =>
      simp only [List.cons_append, List.cons.injEq] at h
      have h1' : c ∉ t1 := fun hm => h1 (List.mem_cons_of_mem a hm)
      have h3' : c ∉ t3 := fun hm => h3 (List.mem_cons_of_mem b hm)
      obtain ⟨e1, e2⟩ := ih t3 l2 l4 h1' h3'
        (by simpa using h.2)
      exact ⟨by rw [h.1, e1], e2⟩

/-- Two strings with the same character data are equal. -/
theorem string_eq_of_data_eq (s t : String) (h : s.data = t.data) : s = t := by
  cases s; cases t; simp only at h; rw [h]

/-- The service-side key `usage:<t>:<m>:<p>` and the route-side key
`usage:<t>:<p>:<m>` differ whenever the metric and period are distinct
colon-free strings. -/
theorem serviceUsageKey_ne_routeUsageKey (t m p : String)
    (hm : ':' ∉ m.data) (hp : ':' ∉ p.data) (hne : m ≠ p) :
    serviceUsageKey t m p ≠ routeUsageKey t p m := by
  intro h
  apply hne
  have hd := congrArg String.data h
  simp only [serviceUsageKey, routeUsageKey, String.data_append,
    List.append_assoc] at hd
  have h1 := List.append_cancel_left hd
  have h2 := List.append_cancel_left h1
  have h3 := List.append_cancel_left h2
  simp only [List.singleton_append] at h3
  obtain ⟨e, _⟩ := append_cons_sep_inj ':' m.data p.data p.data m.data hm hp h3
  exact string_eq_of_data_eq m p e

-- ===========================================================================
-- Theorems: usage ledger writes (C4, C5, C6)
-- ===========================================================================

/-- C4 (counterexample): a later `UsageService.record` write in the same
period does change the stored limit when it supplies a different value —
after recording with limit 100 and then with limit 50, the stored record
carries limit 50, not the sticky 100 the claim predicts. -/
theorem c4_counterexample :
    let st1 := (UsageService.record emptyUsage "tn_1" "rooms" 5 100 (some "2026-10")
      "2026-10" "2026-10-11" "now1").2
    let st2 := (UsageService.record st1 "tn_1" "rooms" 6 50 (some "2026-10")
      "2026-10" "2026-10-12" "now2").2
    (st1 (serviceUsageKey "tn_1" "rooms" "2026-10")).map StoredUsage.limit = some 100 ∧
    (st2 (serviceUsageKey "tn_1" "rooms" "2026-10")).map StoredUsage.limit = some 50 ∧
    (50 : Nat) ≠ 100 := by
  decide

/-- C4 (amended): the route-level tracker `trackUsage` is the sticky path —
a write against an existing record spreads the record, changing only
`current` and `updated_at`, so its stored limit is unchanged (`trackUsage`
derives a limit only when creating the record); the service-level
`UsageService.record` instead always stores the caller-supplied limit,
overwriting any previously stored value. -/
theorem c4_amended :
    (∀ (st : UsageStore) (tenants : String → Option TenantLite)
        (plans : String → Option PlanRec) (t m : String) (a : Nat) (p iso : String)
        (existing : StoredUsage), st (routeUsageKey t p m) = some existing →
        (trackUsage st tenants plans t m a p iso) (routeUsageKey t p m) =
          some { existing with current := existing.current + a, updatedAt := iso })
  ∧ (∀ (st : UsageStore) (t m : String) (v l : Nat) (po : Option String)
        (cp today iso : String),
        ((UsageService.record st t m v l po cp today iso).2
            (serviceUsageKey t m (po.getD cp))).map StoredUsage.limit = some l) := by
  constructor
  · intro st tenants plans t m a p iso existing hex
    simp [trackUsage, hex, setUsage]
  · intro st t m v l po cp today iso
    simp [UsageService.record, setUsage]

/-- Store holding one route-keyed usage record, for exercising `trackUsage`
on its existing-record branch. -/
def stRouteRec : UsageStore :=
  setUsage emptyUsage (routeUsageKey "tn_1" "2026-10" "rooms") uRecAtLimit

theorem c4_amended_witness :
    (trackUsage stRouteRec (fun _ => none) (fun _ => none) "tn_1" "rooms" 3
        "2026-10" "now3") (routeUsageKey "tn_1" "2026-10" "rooms") =
      some { uRecAtLimit with current := uRecAtLimit.current + 3, updatedAt := "now3" } :=
  c4_amended.1 stRouteRec (fun _ => none) (fun _ => none) "tn_1" "rooms" 3
    "2026-10" "now3" uRecAtLimit (by decide)

/-- C5 (counterexample): the service-level ledger does not address
`usage:<tenantId>:<period>:<metric>` — it puts the metric before the
period, so for the tuple (tn_1, api_calls, 2026-10) the service key and the
route-tracker key are different strings, and a `trackUsage` write is
invisible to `UsageService.get`. -/
theorem c5_counterexample :
    serviceUsageKey "tn_1" "api_calls" "2026-10" = "usage:tn_1:api_calls:2026-10" ∧
    routeUsageKey "tn_1" "2026-10" "api_calls" = "usage:tn_1:2026-10:api_calls" ∧
    serviceUsageKey "tn_1" "api_calls" "2026-10" ≠
      routeUsageKey "tn_1" "2026-10" "api_calls" ∧
    UsageService.get
      (trackUsage emptyUsage (fun _ => none) (fun _ => none) "tn_1" "api_calls" 1
        "2026-10" "now") "tn_1" "api_calls" (some "2026-10") "2026-10" = none := by
  decide

/-- C5 (amended): the route-level paths in usage.tsx address
`usage:<tenantId>:<period>:<metric>` as the key convention states, but the
service-level ledger operations address `usage:<tenantId>:<metric>:<period>`;
the service reads its own writes back under its key, while for any tuple
whose metric and period are distinct colon-free strings the two paths
address different stored records, so a route-tracker write never reaches
the record the service reads. -/
theorem c5_amended :
    (∀ (st : UsageStore) (t m : String) (v l : Nat) (po : Option String)
        (cp today iso : String),
        UsageService.get (UsageService.record st t m v l po cp today iso).2 t m po cp =
          some (UsageService.record st t m v l po cp today iso).1)
  ∧ (∀ (t m p : String), ':' ∉ m.data → ':' ∉ p.data → m ≠ p →
        serviceUsageKey t m p ≠ routeUsageKey t p m)
  ∧ (∀ (st : UsageStore) (tenants : String → Option TenantLite)
        (plans : String → Option PlanRec) (t m p : String) (a : Nat) (iso cp : String),
        ':' ∉ m.data → ':' ∉ p.data → m ≠ p →
        UsageService.get (trackUsage st tenants plans t m a p iso) t m (some p) cp =
          UsageService.get st t m (some p) cp) := by
  refine ⟨?_, ?_, ?_⟩
  · intro st t m v l po cp today iso
    simp [UsageService.get, UsageService.record, setUsage]
  · intro t m p hm hp hne
    exact serviceUsageKey_ne_routeUsageKey t m p hm hp hne
  · intro st tenants plans t m p a iso cp hm hp hne
    have hk := serviceUsageKey_ne_routeUsageKey t m p hm hp hne
    cases hc : st (routeUsageKey t p m) with
    | none => simp [UsageService.get, trackUsage, hc, setUsage, hk]
    | some existing => simp [UsageService.get, trackUsage, hc, setUsage, hk]

theorem c5_amended_witness :
    UsageService.get
      (trackUsage stRouteRec (fun _ => none) (fun _ => none) "tn_1" "rooms" 2
        "2026-10" "now4") "tn_1" "rooms" (some "2026-10") "2026-10" =
      UsageService.get stRouteRec "tn_1" "rooms" (some "2026-10") "2026-10" :=
  c5_amended.2.2 stRouteRec (fun _ => none) (fun _ => none) "tn_1" "rooms" "2026-10" 2
    "now4" "2026-10" (by decide) (by decide) (by decide)

/-- C6 (counterexample): the route-level tracker creates usage records with
no percentage field at all — recording 5 api_calls through `trackUsage` on
an empty store yields a record whose optional `percentage` is absent,
refuting the claim that every write path stores
`percentage = min(100, round(current/limit*100))`. -/
theorem c6_counterexample :
    (trackUsage emptyUsage (fun _ => none) (fun _ => none) "tn_1" "api_calls" 5
        "2026-10" "now") (routeUsageKey "tn_1" "2026-10" "api_calls") =
      some { metric := "api_calls", period := "2026-10", current := 5, limit := 1000
             percentage := none, daily := none, id := none, tenantId := none
             updatedAt := "now" } := by
  decide

/-- C6 (amended): every record stored by `UsageService.record` (and hence
by `increment`, which calls it) carries
`percentage = min(100, round(current/limit*100))` — the stored
natural-number percentage equals the exact rational rounding, halves up,
capped at 100 — while a record created by the route-level tracker carries
no percentage field. -/
theorem c6_amended :
    (∀ (v l : Nat), 0 < l →
        ((usagePercentage v l : ℚ) = min 100 (round ((v : ℚ) / (l : ℚ) * 100))))
  ∧ (∀ (st : UsageStore) (t m : String) (v l : Nat) (po : Option String)
        (cp today iso : String),
        (UsageService.record st t m v l po cp today iso).1.percentage =
          some (usagePercentage v l) ∧
        ((UsageService.record st t m v l po cp today iso).2
            (serviceUsageKey t m (po.getD cp))).bind StoredUsage.percentage =
          some (usagePercentage v l))
  ∧ (∀ (st : UsageStore) (tenants : String → Option TenantLite)
        (plans : String → Option PlanRec) (t m : String) (a : Nat) (p iso : String),
        st (routeUsageKey t p m) = none →
        ((trackUsage st tenants plans t m a p iso)
            (routeUsageKey t p m)).bind StoredUsage.percentage = none) := by
  refine ⟨?_, ?_, ?_⟩
  · intro v l hl
    have hl0 : l ≠ 0 := Nat.pos_iff_ne_zero.mp hl
    have hqlne : ((l : ℚ)) ≠ 0 := by exact_mod_cast hl0
    have harg : (v : ℚ) / (l : ℚ) * 100 + 1 / 2 =
        ((2 * (v * 100) + l : ℕ) : ℚ) / ((2 * l : ℕ) : ℚ) := by
      push_cast
      field_simp
      ring
    have hnonneg : (0 : ℚ) ≤ ((2 * (v * 100) + l : ℕ) : ℚ) / ((2 * l : ℕ) : ℚ) := by
      positivity
    have hround : round ((v : ℚ) / (l : ℚ) * 100) =
        (((2 * (v * 100) + l) / (2 * l) : ℕ) : ℤ) := by
      rw [round_eq, harg, ← Int.natCast_floor_eq_floor hnonneg,
        Nat.floor_div_eq_div]
    have hcast : ((((2 * (v * 100) + l) / (2 * l) : ℕ)) : ℚ) =
        ((round ((v : ℚ) / (l : ℚ) * 100) : ℤ) : ℚ) := by
      rw [hround, Int.cast_natCast]
    simp only [usagePercentage, hl0, if_false, Nat.cast_min]
    rw [hcast]
    norm_num
  · intro st t m v l po cp today iso
    constructor
    · simp [UsageService.record]
    · simp [UsageService.record, setUsage]
  · intro st tenants plans t m a p iso hnone
    simp [trackUsage, hnone, setUsage]

theorem c6_amended_witness :
    (usagePercentage 5 100 : ℚ) =
      min 100 (round (((5 : ℕ) : ℚ) / ((100 : ℕ) : ℚ) * 100)) :=
  c6_amended.1 5 100 (by norm_num)

-- ===========================================================================
-- Theorems: feature flags (C1, C2)
-- ===========================================================================

/-- Flag used as the concrete counterexample input: its tenant `tn_1` sits
on both the allow-list and the deny-list. -/
def bothListsFlag : FeatureFlag :=
  { key := "beta_dashboard", name := "Beta Dashboard", status := "enabled"
    enabledForTenants := some ["tn_1"]
    disabledForTenants := some ["tn_1"]
    enabledForPlans := none, rolloutPercentage := none }

/-- C1 (counterexample): the per-tenant feature listing path does not obey
deny-over-allow — for a tenant on both the deny-list and the allow-list it
reports the feature as enabled (while `isEnabled` on the same flag and
tenant yields false), so the listing path is not governed by the same
precedence. -/
theorem c1_counterexample :
    optContains bothListsFlag.disabledForTenants "tn_1" = true ∧
    optContains bothListsFlag.enabledForTenants "tn_1" = true ∧
    isEnabled [bothListsFlag] "beta_dashboard" "tn_1" none = false ∧
    listFeatureEnabled ["tn_1"] "Basic" bothListsFlag = true := by
  decide

/-- C1 (amended): `FeatureFlagService.isEnabled` applies the layered scope
rules in strict precedence — missing flag or status disabled yields false,
then deny-list false, then allow-list true, then a failing entitled-plan
check false, then rollout gating, then true iff status is enabled, so a
tenant on both lists gets false (deny beats allow); the per-tenant feature
listing path instead checks the allow-list first (a tenant on the
allow-list is enabled even when also on the deny-list), then the deny-list,
and otherwise plan entitlement alone. -/
theorem c1_amended (flags : List FeatureFlag) (k t : String) (p : Option String) :
    (flags.find? (fun f => f.key = k) = none → isEnabled flags k t p = false)
  ∧ (∀ flag, flags.find? (fun f => f.key = k) = some flag →
      ((flag.status = "disabled" → isEnabled flags k t p = false)
     ∧ (flag.status ≠ "disabled" → optContains flag.disabledForTenants t = true →
          isEnabled flags k t p = false)
     ∧ (flag.status ≠ "disabled" → optContains flag.disabledForTenants t = false →
          optContains flag.enabledForTenants t = true → isEnabled flags k t p = true)
     ∧ (flag.status ≠ "disabled" → optContains flag.disabledForTenants t = false →
          optContains flag.enabledForTenants t = false → planGateFails flag p = true →
          isEnabled flags k t p = false)
     ∧ (flag.status ≠ "disabled" → optContains flag.disabledForTenants t = false →
          optContains flag.enabledForTenants t = false → planGateFails flag p = false →
          ∀ r, flag.rolloutPercentage = some r → r < 100 →
            isEnabled flags k t p = decide (charCodeSum t % 100 < r))
     ∧ (flag.status ≠ "disabled" → optContains flag.disabledForTenants t = false →
          optContains flag.enabledForTenants t = false → planGateFails flag p = false →
          (flag.rolloutPercentage = none ∨
            ∃ r, flag.rolloutPercentage = some r ∧ 100 ≤ r) →
          (isEnabled flags k t p = true ↔ flag.status = "enabled"))))
  ∧ (∀ (ids : List String) (plan : String) (f : FeatureFlag),
      (ids.any (fun i => optContains f.enabledForTenants i) = true →
         listFeatureEnabled ids plan f = true)
    ∧ (ids.any (fun i => optContains f.enabledForTenants i) = false →
         ids.any (fun i => optContains f.disabledForTenants i) = true →
         listFeatureEnabled ids plan f = false)
    ∧ (ids.any (fun i => optContains f.enabledForTenants i) = false →
         ids.any (fun i => optContains f.disabledForTenants i) = false →
         listFeatureEnabled ids plan f = (f.enabledForPlans.getD []).contains plan)) := by
  refine ⟨?_, ?_, ?_⟩
  · intro hfind
    simp [isEnabled, hfind]
  · intro flag hfind
    refine ⟨?_, ?_, ?_, ?_, ?_, ?_⟩
    · intro hs
      simp [isEnabled, hfind, evalFlag, hs]
    · intro hs hd
      simp [isEnabled, hfind, evalFlag, hs, hd]
    · intro hs hd he
      simp [isEnabled, hfind, evalFlag, hs, hd, he]
    · intro hs hd he hp
      simp [isEnabled, hfind, evalFlag, hs, hd, he, hp]
    · intro hs hd he hp r hr hlt
      simp [isEnabled, hfind, evalFlag, hs, hd, he, hp, hr, hlt]
    · intro hs hd he hp hro
      rcases hro with hro | ⟨r, hr, hge⟩
      · simp [isEnabled, hfind, evalFlag, hs, hd, he, hp, hro]
      · simp [isEnabled, hfind, evalFlag, hs, hd, he, hp, hr, Nat.not_lt.mpr hge]
  · intro ids plan f
    refine ⟨?_, ?_, ?_⟩
    · intro he
      simp [listFeatureEnabled, he]
    · intro he hd
      simp [listFeatureEnabled, he, hd]
    · intro he hd
      simp [listFeatureEnabled, he, hd]

theorem c1_amended_witness :
    isEnabled [bothListsFlag] "beta_dashboard" "tn_1" (some "Basic") = false :=
  ((c1_amended [bothListsFlag] "beta_dashboard" "tn_1" (some "Basic")).2.1
    bothListsFlag (by decide)).2.1 (by decide) (by decide)

/-- Flag used to exercise the rollout rule: a 30% rollout with no
allow/deny lists and no plan list. -/
def rolloutFlag : FeatureFlag :=
  { key := "new_editor", name := "New Editor", status := "enabled"
    enabledForTenants := none, disabledForTenants := none
    enabledForPlans := none, rolloutPercentage := some 30 }

/-- C2: when evaluation reaches the rollout rule (flag found, not disabled,
tenant on neither list, plan gate passing) and the flag declares a rollout
percentage below 100, `isEnabled` returns true iff the sum of the
character codes of the tenant identifier reduced modulo 100 is below the
percentage — a pure function of the identifier string, so the same
identifier always lands in the same bucket; with percentage 0 the result is
false for every tenant, and with percentage 100 the rollout rule does not
gate and the result is true iff the status is enabled. -/
theorem c2_rollout_bucket (flags : List FeatureFlag) (k t : String)
    (p : Option String) (flag : FeatureFlag)
    (hfind : flags.find? (fun f => f.key = k) = some flag)
    (hs : flag.status ≠ "disabled")
    (hd : optContains flag.disabledForTenants t = false)
    (he : optContains flag.enabledForTenants t = false)
    (hp : planGateFails flag p = false) :
    (∀ r, flag.rolloutPercentage = some r → r < 100 →
       (isEnabled flags k t p = true ↔ charCodeSum t % 100 < r))
  ∧ (flag.rolloutPercentage = some 0 → isEnabled flags k t p = false)
  ∧ (flag.rolloutPercentage = some 100 →
       (isEnabled flags k t p = true ↔ flag.status = "enabled")) := by
  refine ⟨?_, ?_, ?_⟩
  · intro r hr hlt
    simp [isEnabled, hfind, evalFlag, hs, hd, he, hp, hr, hlt]
  · intro hr
    simp [isEnabled, hfind, evalFlag, hs, hd, he, hp, hr]
  · intro hr
    simp [isEnabled, hfind, evalFlag, hs, hd, he, hp, hr]

theorem c2_rollout_bucket_witness :
    isEnabled [rolloutFlag] "new_editor" "tn_1" none = true ↔
      charCodeSum "tn_1" % 100 < 30 :=
  (c2_rollout_bucket [rolloutFlag] "new_editor" "tn_1" none rolloutFlag
    (by decide) (by decide) (by decide) (by decide) (by decide)).1 30 rfl (by decide)

-- ===========================================================================
-- Theorems: tenant resolution (C3, C7)
-- ===========================================================================

/-- C3: `resolve` tries its sources in strict order, short-circuiting on
the first hit — first the fast-store point lookup keyed by the identifier
(under the `tenant:` namespace), then, only when the identifier matches the
hyphenated-hex UUID shape, the relational query by primary-key equality,
then (when the UUID step does not apply or misses) the relational query by
equality on the `external_id` inside the settings payload, and on no match
a not-found result with a null tenant rather than an error. -/
theorem c3_resolve_order (kv : String → Option Tenant) (pg : List PgTenant)
    (today identifier : String) :
    (∀ t, kv ("tenant:" ++ identifier) = some t →
        resolve kv pg today identifier = { tenant := some t, source := some "kv" })
  ∧ (kv ("tenant:" ++ identifier) = none → isUuidShape identifier = true →
      ∀ r, pg.find? (fun x => x.id = identifier) = some r →
        resolve kv pg today identifier =
          { tenant := some (pgToTenant r today), source := some "postgres" })
  ∧ (kv ("tenant:" ++ identifier) = none →
      (isUuidShape identifier = false ∨
        pg.find? (fun x => x.id = identifier) = none) →
      ∀ r, pg.find?
          (fun x => settingsField x PgSettings.external_id = some identifier) = some r →
        resolve kv pg today identifier =
          { tenant := some (pgToTenant r today), source := some "postgres" })
  ∧ (kv ("tenant:" ++ identifier) = none →
      (isUuidShape identifier = false ∨
        pg.find? (fun x => x.id = identifier) = none) →
      pg.find?
          (fun x => settingsField x PgSettings.external_id = some identifier) = none →
        resolve kv pg today identifier = { tenant := none, source := none }) := by
  refine ⟨?_, ?_, ?_, ?_⟩
  · intro t hkv
    simp [resolve, hkv]
  · intro hkv huuid r hfind
    simp [resolve, hkv, huuid, hfind]
  · intro hkv hmiss r hfind
    rcases hmiss with hmiss | hmiss
    · simp [resolve, hkv, hmiss, hfind]
    · cases hu : isUuidShape identifier <;>
        simp [resolve, hkv, hu, hmiss, hfind]
  · intro hkv hmiss hfind
    rcases hmiss with hmiss | hmiss
    · simp [resolve, hkv, hmiss, hfind]
    · cases hu : isUuidShape identifier <;>
        simp [resolve, hkv, hu, hmiss, hfind]

/-- Relational-store row used as concrete input for the resolution
theorems: a tenant with a UUID primary key and an external code `T-42` in
its settings payload. -/
def pgRowW : PgTenant :=
  { id := "11111111-2222-3333-4444-555555555555", name := "Acme"
    status := "active", email := some "ops@acme.test", phone := none
    created_at := some "2026-01-02T03:04:05Z"
    settings := some
      { external_id := some "T-42", plan := some "Pro", address := none
        city := none, state := none, country := none, postal_code := none
        website := none, industry := none, size := none, timezone := none
        currency := none, logo := none, primary_color := none
        last_active_at := none } }

theorem c3_resolve_order_witness :
    resolve (fun _ => none) [pgRowW] "2026-10-11"
        "11111111-2222-3333-4444-555555555555" =
      { tenant := some (pgToTenant pgRowW "2026-10-11"), source := some "postgres" } :=
  (c3_resolve_order (fun _ => none) [pgRowW] "2026-10-11"
      "11111111-2222-3333-4444-555555555555").2.1 rfl (by decide) pgRowW (by decide)

/-- C7: for a tenant with no fast-store record that exists in the
relational store with an external code in its settings payload, `resolve`
on the UUID and `resolve` on the external code return the same translated
record, with the relational store reported as the source in both cases. -/
theorem c7_resolve_uuid_externalId_agree (kv : String → Option Tenant)
    (pg : List PgTenant) (today u code : String) (r : PgTenant)
    (hkvu : kv ("tenant:" ++ u) = none) (hkvc : kv ("tenant:" ++ code) = none)
    (huuid : isUuidShape u = true) (hcode : isUuidShape code = false)
    (hbyid : pg.find? (fun x => x.id = u) = some r)
    (hext : pg.find?
      (fun x => settingsField x PgSettings.external_id = some code) = some r) :
    resolve kv pg today u = resolve kv pg today code ∧
    resolve kv pg today u =
      { tenant := some (pgToTenant r today), source := some "postgres" } := by
  have h1 : resolve kv pg today u =
      { tenant := some (pgToTenant r today), source := some "postgres" } := by
    simp [resolve, hkvu, huuid, hbyid]
  have h2 : resolve kv pg today code =
      { tenant := some (pgToTenant r today), source := some "postgres" } := by
    simp [resolve, hkvc, hcode, hext]
  exact ⟨h1.trans h2.symm, h1⟩

theorem c7_resolve_uuid_externalId_agree_witness :
    resolve (fun _ => none) [pgRowW] "2026-10-11"
        "11111111-2222-3333-4444-555555555555" =
      resolve (fun _ => none) [pgRowW] "2026-10-11" "T-42" :=
  (c7_resolve_uuid_externalId_agree (fun _ => none) [pgRowW] "2026-10-11"
    "11111111-2222-3333-4444-555555555555" "T-42" pgRowW rfl rfl (by decide)
    (by decide) (by decide) (by decide)).1

end Strehon
